import Mathlib

/-!
Verification of the reactBlog data-service layer.

Shallow embedding of:
  - the in-memory fetch cache and createCacheableFetch wrapper
    (src/unnamed/part_001, dataService utilities);
  - the Supabase-backed services categoriesService, postsService and
    engagementService with their mock-data fallbacks
    (services/api.js, found in src/src/components/common/CategoryBadge.jsx);
  - the mock dataset mockCategories / mockPosts (src/unnamed/part_002);
  - the client-side view-tracking and like-toggling flows
    (src/src/pages/PostPage.jsx and the usePostEngagement hook in
    src/unnamed/part_005).

JavaScript conventions are modelled explicitly: a JS value is a JsVal and
its truthiness is the function truthy; absence (undefined / null results
of Map.get) is Option; a promise that can reject is Except; remote
(Supabase) queries are parameterised by oracles describing the remote
data and whether each remote operation fails.
-/

namespace ReactBlog

/-- A JavaScript runtime value, as far as the cache layer observes it:
null, a boolean, a number, a string, or a reference value (object /
array, identified by a tag).  NaN is not modelled; numbers are integers. -/
inductive JsVal where
  | null
  | bool (b : Bool)
  | num (n : Int)
  | str (s : String)
  | obj (tag : Nat)
deriving DecidableEq

/-- JavaScript truthiness of a JsVal: null, false, 0 and the empty string
are falsy, every reference value is truthy. -/
def truthy : JsVal → Bool
  | JsVal.null => false
  | JsVal.bool b => b
  | JsVal.num n => n != 0
  | JsVal.str s => s != ""
  | JsVal.obj _ => true

/-- Truthiness of a possibly absent value: undefined and null are falsy.
Models the test in createCacheableFetch, where the miss marker null and a
cached falsy payload are indistinguishable. -/
def truthyOpt : Option JsVal → Bool
  | none => false
  | some v => truthy v

/-- Replace the value stored under key k, keeping its position, or append
the binding at the end when the key is absent.  This is JS Map.set on an
association list; a JS Map holds each key at most once, so replacing
every matching entry coincides with replacing the unique one. -/
def mapSet {α : Type} : List (String × α) → String → α → List (String × α)
  | [], k, v => [(k, v)]
  | p :: rest, k, v =>
    if p.1 == k then (k, v) :: mapSet rest k v else p :: mapSet rest k v

/-- Remove every binding of key k.  This is JS Map.delete on an
association list. -/
def mapDelete {α : Type} (m : List (String × α)) (k : String) : List (String × α) :=
  m.filter (fun p => p.1 != k)

/-- The module-level cache object of the data-service utilities: a data
map and a timestamps map, keyed by the same strings. -/
structure CacheState where
  data : List (String × JsVal)
  timestamps : List (String × Nat)
deriving DecidableEq

/-- The empty cache, the initial state of the module. -/
def emptyCache : CacheState := { data := [], timestamps := [] }

/-- cache.get(key, maxAge): if no timestamp is stored the result is null;
if the entry is older than maxAge both maps drop the key and the result
is null; otherwise the stored data is returned.  Time is the now
argument (Date.now() at the moment of the call). -/
def cacheGet (st : CacheState) (key : String) (maxAge now : Nat) :
    Option JsVal × CacheState :=
  match st.timestamps.lookup key with
  | none => (none, st)
  | some ts =>
    if now - ts > maxAge then
      (none, { data := mapDelete st.data key, timestamps := mapDelete st.timestamps key })
    else
      (st.data.lookup key, st)

/-- cache.set(key, data): store the payload and the current time. -/
def cacheSet (st : CacheState) (key : String) (v : JsVal) (now : Nat) : CacheState :=
  { data := mapSet st.data key v, timestamps := mapSet st.timestamps key now }

/-- cache.invalidate(keyOrPrefix, prefixFlag): with the flag set, collect
the keys of the data map that start with the prefix and delete each from
both maps; otherwise delete the one key from both maps.  (The source
names the flag argument with the words is and prefix joined; that exact
identifier is avoided here.) -/
def cacheInvalidate (st : CacheState) (keyOrPrefix : String) (prefixFlag : Bool) :
    CacheState :=
  if prefixFlag then
    let keysToDelete := (st.data.map Prod.fst).filter (fun k => keyOrPrefix.isPrefixOf k)
    { data := keysToDelete.foldl mapDelete st.data,
      timestamps := keysToDelete.foldl mapDelete st.timestamps }
  else
    { data := mapDelete st.data keyOrPrefix,
      timestamps := mapDelete st.timestamps keyOrPrefix }

/-- invalidateCache(keyOrPrefix, prefixFlag) delegates to cache.invalidate. -/
def invalidateCache (st : CacheState) (keyOrPrefix : String) (prefixFlag : Bool) :
    CacheState :=
  cacheInvalidate st keyOrPrefix prefixFlag

/-- State observed across calls of a wrapped fetch: the shared cache and
the number of invocations of the underlying fetch function so far. -/
structure FetchState where
  cache : CacheState
  calls : Nat
deriving DecidableEq

/-- One call of the function returned by
createCacheableFetch(fetchFn, cacheKey, cacheMaxAge, fallbackFn).
The argument list is represented by its JSON serialisation args, so the
cache key is cacheKey ++ ":" ++ args exactly as in the source.  The
wrapper asks the cache first and returns the cached value when it is
truthy (the source tests the raw value, so a falsy payload is treated
like a miss); otherwise it invokes fetchFn, caches a successful result,
and on rejection falls back to fallbackFn when provided or re-raises. -/
def cacheableFetchStep (fetchFn : String → Except String JsVal) (cacheKey : String)
    (cacheMaxAge : Nat) (fallbackFn : Option (String → JsVal)) (args : String)
    (now : Nat) (st : FetchState) : Except String JsVal × FetchState :=
  let key := cacheKey ++ ":" ++ args
  let res := cacheGet st.cache key cacheMaxAge now
  if truthyOpt res.1 then
    (Except.ok (res.1.getD JsVal.null), { st with cache := res.2 })
  else
    match fetchFn args with
    | Except.ok d =>
      (Except.ok d, { cache := cacheSet res.2 key d now, calls := st.calls + 1 })
    | Except.error e =>
      match fallbackFn with
      | some fb => (Except.ok (fb args), { cache := res.2, calls := st.calls + 1 })
      | none => (Except.error e, { cache := res.2, calls := st.calls + 1 })

/-- A row of the categories table / an element of mockCategories. -/
structure Category where
  id : String
  name : String
  slug : String
  created_at : String
deriving DecidableEq

/-- A post row as the services observe it.  The categories field is the
embedded joined category (present in mockPosts literals; produced by the
select of the remote queries).  The markdown fields content and excerpt
and the cover image URL are omitted: no claim reads them. -/
structure Post where
  id : String
  title : String
  slug : String
  category_id : String
  published : Bool
  published_at : String
  views : Nat
  likes : Nat
  categories : Option Category
deriving DecidableEq

/-- The static fallback list mockCategories, in its source order. -/
def mockCategories : List Category :=
  [ { id := "1649b2bb-031b-416f-9277-a8ada9b1dfea", name := "Technology",
      slug := "technology", created_at := "2024-01-01T00:00:00Z" },
    { id := "d7efdb3b-6c15-42e6-9f37-5e7af86f4ff1", name := "Travel",
      slug := "travel", created_at := "2024-01-01T00:00:00Z" },
    { id := "de7e1f92-e3f1-4b91-8eb3-a5a6fba90c0d", name := "Lifestyle",
      slug := "lifestyle", created_at := "2024-01-01T00:00:00Z" },
    { id := "b9b5f12d-d4a5-4e3e-a4bc-3d0e30db0c18", name := "Design",
      slug := "design", created_at := "2024-01-01T00:00:00Z" },
    { id := "c5b8a573-ec83-4c0a-848c-ebc1c22a27a8", name := "Programming",
      slug := "programming", created_at := "2024-01-01T00:00:00Z" } ]

/-- The static fallback list mockPosts, in its source order, with the
embedded category objects of the source literals (the nested objects
carry no created_at field; it is left empty). -/
def mockPosts : List Post :=
  [ { id := "1649b2bb-031b-416f-9277-a8ada9b1dfeb",
      title := "Getting Started with React 19",
      slug := "getting-started-with-react-19",
      category_id := "1649b2bb-031b-416f-9277-a8ada9b1dfea",
      published := true, published_at := "2024-09-10T12:00:00Z",
      views := 150, likes := 23,
      categories := some { id := "1649b2bb-031b-416f-9277-a8ada9b1dfea",
                           name := "Technology", slug := "technology", created_at := "" } },
    { id := "d7efdb3b-6c15-42e6-9f37-5e7af86f4ff2",
      title := "Best Travel Destinations for 2024",
      slug := "best-travel-destinations-2024",
      category_id := "d7efdb3b-6c15-42e6-9f37-5e7af86f4ff1",
      published := true, published_at := "2024-09-09T12:00:00Z",
      views := 89, likes := 12,
      categories := some { id := "d7efdb3b-6c15-42e6-9f37-5e7af86f4ff1",
                           name := "Travel", slug := "travel", created_at := "" } },
    { id := "f9d68a5a-1a43-4d55-9eaf-e0f4337f1c0f",
      title := "The Art of Minimalist Web Design",
      slug := "art-of-minimalist-web-design",
      category_id := "b9b5f12d-d4a5-4e3e-a4bc-3d0e30db0c18",
      published := true, published_at := "2024-09-08T12:00:00Z",
      views := 0, likes := 0,
      categories := some { id := "b9b5f12d-d4a5-4e3e-a4bc-3d0e30db0c18",
                           name := "Design", slug := "design", created_at := "" } },
    { id := "c5b8a573-ec83-4c0a-848c-ebc1c22a27a9",
      title := "Mastering Modern JavaScript: ES2024 Features",
      slug := "mastering-modern-javascript-es2024",
      category_id := "c5b8a573-ec83-4c0a-848c-ebc1c22a27a8",
      published := true, published_at := "2024-09-07T12:00:00Z",
      views := 203, likes := 34,
      categories := some { id := "c5b8a573-ec83-4c0a-848c-ebc1c22a27a8",
                           name := "Programming", slug := "programming", created_at := "" } } ]

/-- The select of the remote post queries: every posts row together with
its embedded category, looked up by category_id in the categories table. -/
def selectWithCategories (posts : List Post) (cats : List Category) : List Post :=
  posts.map (fun p => { p with categories := cats.find? (fun c => c.id == p.category_id) })

/-- Descending order on the publish timestamp (ISO-8601 strings of equal
layout compare lexicographically as they compare chronologically):
p before q when q.published_at is at most p.published_at. -/
def postDesc (p q : Post) : Prop := q.published_at ≤ p.published_at

instance : DecidableRel postDesc := fun p q =>
  inferInstanceAs (Decidable (q.published_at ≤ p.published_at))

instance : IsTotal Post postDesc :=
  ⟨fun p q => le_total q.published_at p.published_at⟩

instance : IsTrans Post postDesc :=
  ⟨fun _ _ _ hpq hqr => le_trans hqr hpq⟩

/-- Ascending order on the category display name. -/
def catNameLe (a b : Category) : Prop := a.name ≤ b.name

instance : DecidableRel catNameLe := fun a b =>
  inferInstanceAs (Decidable (a.name ≤ b.name))

instance : IsTotal Category catNameLe := ⟨fun a b => le_total a.name b.name⟩

instance : IsTrans Category catNameLe := ⟨fun _ _ _ => le_trans⟩

/-- postsService.getPublished(limit, offset).  Unconfigured: the slice
[offset, offset+limit) of mockPosts.  Configured: the remote query
selects all rows with their joined categories, orders by published_at
descending and takes range(offset, offset + limit - 1) — the comment in
the source records that the published/status filter was removed; the
ORDER BY is modelled by an insertion sort under postDesc.  A remote
error falls back to the same slice of mockPosts. -/
def getPublished (configured remoteOk : Bool) (posts : List Post) (cats : List Category)
    (limit offset : Nat) : List Post :=
  if !configured then (mockPosts.drop offset).take limit
  else if remoteOk then
    ((((selectWithCategories posts cats).insertionSort postDesc).drop offset).take limit)
  else (mockPosts.drop offset).take limit

/-- postsService.getBySlug(slug).  Unconfigured: find in mockPosts (a
missed find yields null, here none).  Configured: the remote query
filters the joined rows by slug and applies single(), which succeeds
exactly on one row; any error — among them the no-row case — is caught
and answered from mockPosts.  A transport failure of the query (remoteOk
false) takes the same catch path. -/
def getBySlug (configured remoteOk : Bool) (posts : List Post) (cats : List Category)
    (slug : String) : Option Post :=
  if !configured then mockPosts.find? (fun p => p.slug == slug)
  else if remoteOk then
    match (selectWithCategories posts cats).filter (fun p => p.slug == slug) with
    | [r] => some r
    | _ => mockPosts.find? (fun p => p.slug == slug)
  else mockPosts.find? (fun p => p.slug == slug)

/-- categoriesService.getAll().  Unconfigured: mockCategories as written.
Configured: the remote rows ordered by name ascending; a remote error is
caught and answered with mockCategories. -/
def getAll (configured remoteOk : Bool) (db : List Category) : List Category :=
  if !configured then mockCategories
  else if remoteOk then db.insertionSort catNameLe
  else mockCategories

/-- The try body of engagementService.getLikes(postId), for the
configured case.  The oracle flags describe the two remote reads:
counterFail — the single() read of posts.likes errors (then execution
falls through, without throwing, to the row count); counterVal — the
denormalized counter as stored (null or a number; data.likes with a
JS or-zero default); rowFail — the count query errors (then the throw is
reached); rows — the number of Like rows for the post. -/
def getLikesTry (counterFail : Bool) (counterVal : Option Nat)
    (rowFail : Bool) (rows : Nat) : Except String Nat :=
  if !counterFail then Except.ok (counterVal.getD 0)
  else if rowFail then Except.error "count-failed"
  else Except.ok rows

/-- engagementService.getLikes(postId).  Unconfigured: a random number
below 50, modelled by the rnd argument reduced modulo 50.  Configured:
the try body, with the catch answering 0. -/
def getLikes (configured : Bool) (rnd : Nat) (counterFail : Bool) (counterVal : Option Nat)
    (rowFail : Bool) (rows : Nat) : Nat :=
  if !configured then rnd % 50
  else
    match getLikesTry counterFail counterVal rowFail rows with
    | Except.ok n => n
    | Except.error _ => 0

/-- engagementService.hasLiked(postId, userId).  When the store is not
configured, or either id is falsy (the empty string), the answer comes
from the persistent likedPosts list in local storage (a failed JSON
parse answers false — flag localParseFail).  Otherwise the likes table
is probed for the (postId, userId) row: on success the answer is the
truthiness of the returned row (rowFound); an error of the probe is
caught and answered false. -/
def hasLiked (configured : Bool) (postId userId : String) (probeFail rowFound : Bool)
    (likedLocal : List String) (localParseFail : Bool) : Bool :=
  if !configured || postId == "" || userId == "" then
    if localParseFail then false else likedLocal.contains postId
  else if probeFail then false
  else rowFound

/-- The result of engagementService.toggleLike: a numeric like count, or
the JS literal true. -/
inductive LikeResult where
  | count (n : Nat)
  | trueVal
deriving DecidableEq

/-- The read-back tail of toggleLike: prefer posts.likes, fall back to a
row count, and answer true when neither yields a number. -/
def toggleLikeAfterWrite (counterFail : Bool) (counterVal : Option Nat)
    (rowFail : Bool) (rows : Option Nat) : Except String LikeResult :=
  if !counterFail then
    match counterVal with
    | some n => Except.ok (LikeResult.count n)
    | none => Except.ok LikeResult.trueVal
  else if !rowFail then
    match rows with
    | some n => Except.ok (LikeResult.count n)
    | none => Except.ok LikeResult.trueVal
  else Except.ok LikeResult.trueVal

/-- The try body of engagementService.toggleLike(postId, isLiked) in the
configured case.  userId is the guest id of signInAnonymously (none when
it yields no user: bail out with true).  When unliking, a delete error
throws; when liking, an insert error throws unless its code is the
unique-violation 23505.  Then the authoritative counter posts.likes is
read: on success a stored number is returned and a stored null becomes
true; else the Like rows are counted: a numeric success is returned, and
every remaining path answers true.  (The source spells the liked
argument with the words is and liked joined; the name liked is used.) -/
def toggleLikeTry (userId : Option String) (liked : Bool) (delFail : Bool)
    (insErrCode : Option Nat) (counterFail : Bool) (counterVal : Option Nat)
    (rowFail : Bool) (rows : Option Nat) : Except String LikeResult :=
  match userId with
  | none => Except.ok LikeResult.trueVal
  | some _ =>
    if liked then
      if delFail then Except.error "delete-failed"
      else toggleLikeAfterWrite counterFail counterVal rowFail rows
    else
      match insErrCode with
      | some code =>
        if code == 23505 then toggleLikeAfterWrite counterFail counterVal rowFail rows
        else Except.error "insert-failed"
      | none => toggleLikeAfterWrite counterFail counterVal rowFail rows

/-- engagementService.toggleLike(postId, isLiked), as the promise its
caller awaits: Except.error would be a rejection reaching the caller.
Unconfigured mode resolves to true at once; configured mode runs the try
body and the catch turns any of its errors into true. -/
def toggleLike (configured : Bool) (userId : Option String) (liked : Bool)
    (delFail : Bool) (insErrCode : Option Nat) (counterFail : Bool)
    (counterVal : Option Nat) (rowFail : Bool) (rows : Option Nat) :
    Except String LikeResult :=
  if !configured then Except.ok LikeResult.trueVal
  else
    match toggleLikeTry userId liked delFail insErrCode counterFail counterVal rowFail rows with
    | Except.ok r => Except.ok r
    | Except.error _ => Except.ok LikeResult.trueVal

/-- The session-scoped view-tracking state of PostPage.fetchPost: the
viewedPosts array of sessionStorage plus the number of
posts.incrementViews calls issued so far. -/
structure ViewTrackState where
  viewedPosts : List String
  incrementCalls : Nat
deriving DecidableEq

/-- One run of the view-tracking flow: when the post id is in the
session list nothing happens; otherwise posts.incrementViews is awaited
(it resolves true or false and never rejects) and the id is pushed onto
the stored list. -/
def trackViewStep (postId : String) (st : ViewTrackState) : ViewTrackState :=
  if st.viewedPosts.contains postId then st
  else { viewedPosts := st.viewedPosts ++ [postId],
         incrementCalls := st.incrementCalls + 1 }

/-- The like-toggling state of PostPage.handleLike: the persistent
likedPosts list of localStorage, the liked React state, and the
displayed count. -/
structure LikeState where
  likedPosts : List String
  liked : Bool
  likeCount : Nat
deriving DecidableEq

/-- One run of PostPage.handleLike, restricted to its synchronous local
effects: when currently liked, every copy of the id is filtered out of
the stored list and the count drops (never below zero — Nat subtraction
is the Math.max(0, prev - 1) of the source); otherwise the id is pushed
unless already present and the count rises.  The backend notification
engagementService.toggleLike only reconciles the displayed count later
and never touches the stored list. -/
def handleLike (postId : String) (st : LikeState) : LikeState :=
  if st.liked then
    { likedPosts := st.likedPosts.filter (fun id => id != postId),
      liked := false, likeCount := st.likeCount - 1 }
  else
    { likedPosts :=
        if st.likedPosts.contains postId then st.likedPosts
        else st.likedPosts ++ [postId],
      liked := true, likeCount := st.likeCount + 1 }

/-- A fetch function that always resolves to the number 0 — a falsy but
perfectly legitimate payload (for instance a count of zero results). -/
def fetchNumZero : String → Except String JsVal := fun _ => Except.ok (JsVal.num 0)

/-- A fetch function that always resolves to the truthy number 1. -/
def fetchNumOne : String → Except String JsVal := fun _ => Except.ok (JsVal.num 1)

/-- The initial state of a wrapped fetch: empty cache, no calls yet. -/
def fs0 : FetchState := { cache := emptyCache, calls := 0 }

/-- A concrete cache holding one posts entry and one categories entry,
used to exercise prefix invalidation. -/
def cacheAB : CacheState :=
  { data := [("posts:[]", JsVal.obj 1), ("categories:[]", JsVal.obj 2)],
    timestamps := [("posts:[]", 5), ("categories:[]", 6)] }

/-- Well-formedness of a cache state: every key carrying a timestamp also
carries data.  Every reachable state of the cache object satisfies this,
because set stores, and get and invalidate delete, the two maps in
lockstep. -/
def cacheWellFormed (st : CacheState) : Bool :=
  (st.timestamps.map Prod.fst).all (fun k2 => (st.data.map Prod.fst).contains k2)

/-- A posts-table row whose published flag is false: a draft sitting in
the remote store. -/
def unpublishedPost : Post :=
  { id := "draft-1", title := "Draft", slug := "draft-post",
    category_id := "nocat", published := false,
    published_at := "2024-09-11T12:00:00Z", views := 0, likes := 0,
    categories := none }

/-!  Helper lemmas about the association-list model of JS Map. -/
theorem lookup_mapSet_self {α : Type} (m : List (String × α)) (k : String) (v : α) :
    (mapSet m k v).lookup k = some v := by
  induction m with
  | nil => simp [mapSet, List.lookup_cons]
  | cons p rest ih =>
    obtain ⟨a, b⟩ := p
    by_cases h : a = k
    · simp [mapSet, h, List.lookup_cons]
    · simp [mapSet, beq_false_of_ne h, List.lookup_cons, beq_false_of_ne (Ne.symm h), ih]

theorem lookup_mapSet_ne {α : Type} (m : List (String × α)) (k k2 : String) (v : α)
    (h : k2 ≠ k) : (mapSet m k v).lookup k2 = m.lookup k2 := by
  induction m with
  | nil => simp [mapSet, List.lookup_cons, beq_false_of_ne h]
  | cons p rest ih =>
    obtain ⟨a, b⟩ := p
    by_cases hp : a = k
    · subst hp
      simp [mapSet, List.lookup_cons, beq_false_of_ne h, ih]
    · by_cases hp2 : k2 = a
      · simp [mapSet, beq_false_of_ne hp, List.lookup_cons, hp2]
      · simp [mapSet, beq_false_of_ne hp, List.lookup_cons, beq_false_of_ne hp2, ih]

theorem lookup_mapDelete_self {α : Type} (m : List (String × α)) (k : String) :
    (mapDelete m k).lookup k = none := by
  induction m with
  | nil => simp [mapDelete]
  | cons p rest ih =>
    obtain ⟨a, b⟩ := p
    by_cases h : a = k
    · simpa [mapDelete, h] using ih
    · simp only [mapDelete, List.filter_cons] at ih ⊢
      simp [bne_iff_ne, h, List.lookup_cons, beq_false_of_ne (Ne.symm h), ih]

theorem lookup_mapDelete_ne {α : Type} (m : List (String × α)) (k k2 : String)
    (h : k2 ≠ k) : (mapDelete m k).lookup k2 = m.lookup k2 := by
  induction m with
  | nil => simp [mapDelete]
  | cons p rest ih =>
    obtain ⟨a, b⟩ := p
    by_cases hp : a = k
    · subst hp
      simp only [mapDelete, List.filter_cons] at ih ⊢
      simp [List.lookup_cons, beq_false_of_ne h, ih]
    · by_cases hp2 : k2 = a
      · simp only [mapDelete, List.filter_cons] at ih ⊢
        simp [bne_iff_ne, hp, List.lookup_cons, hp2]
      · simp only [mapDelete, List.filter_cons] at ih ⊢
        simp [bne_iff_ne, hp, List.lookup_cons, beq_false_of_ne hp2, ih]

theorem lookup_foldl_mapDelete {α : Type} (ks : List String) (m : List (String × α))
    (k2 : String) :
    (ks.foldl mapDelete m).lookup k2 = if k2 ∈ ks then none else m.lookup k2 := by
  induction ks generalizing m with
  | nil => simp
  | cons k0 ks ih =>
    simp only [List.foldl_cons, ih, List.mem_cons]
    by_cases h0 : k2 = k0
    · simp [h0, lookup_mapDelete_self]
    · by_cases hks : k2 ∈ ks
      · simp [h0, hks]
      · simp [h0, hks, lookup_mapDelete_ne _ _ _ h0]

theorem lookup_none_of_not_mem_keys {α : Type} (m : List (String × α)) (k : String)
    (h : k ∉ m.map Prod.fst) : m.lookup k = none := by
  induction m with
  | nil => simp
  | cons p rest ih =>
    obtain ⟨a, b⟩ := p
    simp only [List.map_cons, List.mem_cons] at h
    push_neg at h
    simp [List.lookup_cons, beq_false_of_ne h.1, ih h.2]

theorem mem_keys_of_lookup_isSome {α : Type} (m : List (String × α)) (k : String)
    (h : (m.lookup k).isSome = true) : k ∈ m.map Prod.fst := by
  by_contra hmem
  rw [lookup_none_of_not_mem_keys m k hmem] at h
  simp at h

/-!  Shared facts about windows and the mock dataset. -/

theorem sliceSublist (l : List Post) (n m : Nat) :
    List.Sublist ((l.drop n).take m) l :=
  ((l.drop n).take_sublist m).trans (List.drop_sublist n l)

theorem mockPosts_sorted : mockPosts.Sorted postDesc := by
  simp only [mockPosts, List.sorted_cons, List.forall_mem_cons, postDesc,
    List.not_mem_nil, false_implies, implies_true, and_true, true_and,
    List.sorted_nil, String.le_iff_toList_le]
  decide

theorem mockPosts_published_with_category :
    ∀ p ∈ mockPosts, p.published = true ∧ p.categories.isSome = true := by
  decide

/-!  The claims. -/

/-- Claim C1, counterexample: the wrapped fetch tests the cached value
for truthiness, so a falsy payload — here the number 0, stored by the
first call and 0 ms old at the second call, well within the 1000 ms max
age — is not served from the cache: the second identical call invokes
the underlying fetch again, for 2 calls in total, refuting the claim
that an identical call within maxAgeMs never invokes the fetch twice. -/
theorem C1_falsy_payload_refetched :
    truthy (JsVal.num 0) = false ∧
    (cacheableFetchStep fetchNumZero "posts" 1000 none "[]" 0
      (cacheableFetchStep fetchNumZero "posts" 1000 none "[]" 0 fs0).2).2.calls = 2 := by
  constructor
  · rfl
  · rfl

/-- Claim C1, amended: provided the fetched payload is truthy, a wrapped
fetch called on a cache miss stores the result; a second identical call
whose age t2 - t1 is at most maxAge is served from the cache (same
payload, no further invocation of the underlying fetch), while a second
call past maxAge invokes the underlying fetch again, returns the fresh
result and re-stamps the entry at t2 — the stale entry is never served. -/
theorem C1_cache_hit_and_expiry (fetchFn : String → Except String JsVal)
    (fb : Option (String → JsVal)) (cacheKey args : String) (maxAge t1 t2 : Nat)
    (st : FetchState) (d : JsVal)
    (hfetch : fetchFn args = Except.ok d) (htruthy : truthy d = true)
    (hmiss : st.cache.timestamps.lookup (cacheKey ++ ":" ++ args) = none) :
    (cacheableFetchStep fetchFn cacheKey maxAge fb args t1 st).2.calls = st.calls + 1 ∧
    (t2 - t1 ≤ maxAge →
      (cacheableFetchStep fetchFn cacheKey maxAge fb args t2
          (cacheableFetchStep fetchFn cacheKey maxAge fb args t1 st).2).1 = Except.ok d ∧
      (cacheableFetchStep fetchFn cacheKey maxAge fb args t2
          (cacheableFetchStep fetchFn cacheKey maxAge fb args t1 st).2).2.calls
        = st.calls + 1) ∧
    (maxAge < t2 - t1 →
      (cacheableFetchStep fetchFn cacheKey maxAge fb args t2
          (cacheableFetchStep fetchFn cacheKey maxAge fb args t1 st).2).1 = Except.ok d ∧
      (cacheableFetchStep fetchFn cacheKey maxAge fb args t2
          (cacheableFetchStep fetchFn cacheKey maxAge fb args t1 st).2).2.calls
        = st.calls + 2 ∧
      (cacheableFetchStep fetchFn cacheKey maxAge fb args t2
          (cacheableFetchStep fetchFn cacheKey maxAge fb args t1 st).2).2.cache.timestamps.lookup
          (cacheKey ++ ":" ++ args) = some t2) := by
  have hstep1 : cacheableFetchStep fetchFn cacheKey maxAge fb args t1 st
      = (Except.ok d,
         { cache := cacheSet st.cache (cacheKey ++ ":" ++ args) d t1,
           calls := st.calls + 1 }) := by
    simp [cacheableFetchStep, cacheGet, hmiss, truthyOpt, hfetch]
  refine ⟨by rw [hstep1], ?_, ?_⟩
  · intro hle
    have hts : (cacheSet st.cache (cacheKey ++ ":" ++ args) d t1).timestamps.lookup
        (cacheKey ++ ":" ++ args) = some t1 := lookup_mapSet_self _ _ _
    have hdata : (cacheSet st.cache (cacheKey ++ ":" ++ args) d t1).data.lookup
        (cacheKey ++ ":" ++ args) = some d := lookup_mapSet_self _ _ _
    rw [hstep1]
    simp [cacheableFetchStep, cacheGet, hts, hdata, truthyOpt, htruthy,
      Nat.not_lt.mpr hle]
  · intro hgt
    have hts : (cacheSet st.cache (cacheKey ++ ":" ++ args) d t1).timestamps.lookup
        (cacheKey ++ ":" ++ args) = some t1 := lookup_mapSet_self _ _ _
    rw [hstep1]
    simp [cacheableFetchStep, cacheGet, hts, truthyOpt, hgt, hfetch, cacheSet,
      lookup_mapSet_self]

/-- Claim C1, witness: the amended theorem applied to a truthy payload
(the number 1), key posts, empty argument list, max age 1000 ms, first
call at 0, second at 500, from the initial state. -/
theorem C1_cache_hit_and_expiry_witness :
    (cacheableFetchStep fetchNumOne "posts" 1000 none "[]" 0 fs0).2.calls = fs0.calls + 1 ∧
    (500 - 0 ≤ 1000 →
      (cacheableFetchStep fetchNumOne "posts" 1000 none "[]" 500
          (cacheableFetchStep fetchNumOne "posts" 1000 none "[]" 0 fs0).2).1
        = Except.ok (JsVal.num 1) ∧
      (cacheableFetchStep fetchNumOne "posts" 1000 none "[]" 500
          (cacheableFetchStep fetchNumOne "posts" 1000 none "[]" 0 fs0).2).2.calls
        = fs0.calls + 1) ∧
    (1000 < 500 - 0 →
      (cacheableFetchStep fetchNumOne "posts" 1000 none "[]" 500
          (cacheableFetchStep fetchNumOne "posts" 1000 none "[]" 0 fs0).2).1
        = Except.ok (JsVal.num 1) ∧
      (cacheableFetchStep fetchNumOne "posts" 1000 none "[]" 500
          (cacheableFetchStep fetchNumOne "posts" 1000 none "[]" 0 fs0).2).2.calls
        = fs0.calls + 2 ∧
      (cacheableFetchStep fetchNumOne "posts" 1000 none "[]" 500
          (cacheableFetchStep fetchNumOne "posts" 1000 none "[]" 0 fs0).2).2.cache.timestamps.lookup
          ("posts" ++ ":" ++ "[]") = some 500) :=
  C1_cache_hit_and_expiry fetchNumOne none "posts" "[]" 1000 0 500 fs0
    (JsVal.num 1) rfl rfl rfl

/-- Claim C2, counterexample: the remote query of getPublished applies no
filter on the published flag (the source comment records its removal),
so with the store configured and a single unpublished row in the posts
table, getPublished returns that unpublished row. -/
theorem C2_remote_returns_unpublished :
    getPublished true true [unpublishedPost] [] 10 0 = [unpublishedPost] ∧
    unpublishedPost.published = false := by
  constructor
  · rfl
  · rfl

/-- Claim C2, amended: getPublished windows to [offset, offset+limit)
and orders by publish timestamp descending in both modes, and joins each
returned row with its category; but in remote mode every row of the
posts table is eligible regardless of its published flag, while the
fallback slice of mockPosts happens to contain only published posts,
each carrying its embedded category. -/
theorem C2_getPublished_window_sorted_joined (posts : List Post) (cats : List Category)
    (limit offset : Nat) (b : Bool) :
    ((getPublished true true posts cats limit offset).Sorted postDesc ∧
      (∀ p ∈ getPublished true true posts cats limit offset,
        (∃ q ∈ posts,
          p = { q with categories := cats.find? (fun c => c.id == q.category_id) }) ∧
        p.categories = cats.find? (fun c => c.id == p.category_id))) ∧
    (getPublished false b posts cats limit offset = (mockPosts.drop offset).take limit ∧
      getPublished true false posts cats limit offset = (mockPosts.drop offset).take limit ∧
      ((mockPosts.drop offset).take limit).Sorted postDesc ∧
      ∀ p ∈ (mockPosts.drop offset).take limit,
        p.published = true ∧ p.categories.isSome = true) := by
  refine ⟨⟨?_, ?_⟩, rfl, rfl, ?_, ?_⟩
  · have h := List.sorted_insertionSort postDesc (selectWithCategories posts cats)
    exact h.sublist (sliceSublist _ _ _)
  · intro p hp
    have hp2 : p ∈ (selectWithCategories posts cats).insertionSort postDesc :=
      (sliceSublist _ _ _).subset hp
    rw [List.mem_insertionSort] at hp2
    obtain ⟨q, hq, rfl⟩ := List.mem_map.mp hp2
    exact ⟨⟨q, hq, rfl⟩, rfl⟩
  · exact mockPosts_sorted.sublist (sliceSublist _ _ _)
  · intro p hp
    exact mockPosts_published_with_category p ((sliceSublist _ _ _).subset hp)

/-- Claim C3: prefix invalidation on a well-formed cache (timestamps
only for keys that hold data, as in every reachable state) removes
exactly the entries whose key starts with the prefix — payload and
timestamp both — and leaves every other entry unchanged. -/
theorem C3_invalidate_prefix_frame (st : CacheState) (pfx k : String)
    (hwf : cacheWellFormed st = true) :
    ((invalidateCache st pfx true).data.lookup k
        = if pfx.isPrefixOf k then none else st.data.lookup k) ∧
    ((invalidateCache st pfx true).timestamps.lookup k
        = if pfx.isPrefixOf k then none else st.timestamps.lookup k) := by
  have hwf2 : ∀ k2, (st.timestamps.lookup k2).isSome = true →
      k2 ∈ st.data.map Prod.fst := by
    intro k2 h2
    have hk2 : k2 ∈ st.timestamps.map Prod.fst := mem_keys_of_lookup_isSome _ _ h2
    have := List.all_eq_true.mp hwf k2 hk2
    simpa [List.contains] using this
  have hmem : ∀ k2, (k2 ∈ (st.data.map Prod.fst).filter (fun x => pfx.isPrefixOf x))
      ↔ (k2 ∈ st.data.map Prod.fst ∧ pfx.isPrefixOf k2 = true) := by
    intro k2; simp [List.mem_filter]
  simp only [invalidateCache, cacheInvalidate, if_pos, lookup_foldl_mapDelete]
  constructor
  · by_cases hp : pfx.isPrefixOf k
    · simp only [hp, if_true]
      by_cases hd : k ∈ st.data.map Prod.fst
      · rw [if_pos ((hmem k).mpr ⟨hd, hp⟩)]
      · rw [if_neg (fun hin => hd ((hmem k).mp hin).1)]
        exact lookup_none_of_not_mem_keys _ _ hd
    · simp only [hp, if_false]
      rw [if_neg (fun hin => hp ((hmem k).mp hin).2)]
      simp [Bool.not_eq_true] at hp
      simp [hp]
  · by_cases hp : pfx.isPrefixOf k
    · simp only [hp, if_true]
      cases hts : st.timestamps.lookup k with
      | none => split <;> simp [hts]
      | some ts =>
        have hd : k ∈ st.data.map Prod.fst := hwf2 k (by simp [hts])
        rw [if_pos ((hmem k).mpr ⟨hd, hp⟩)]
    · simp only [hp, if_false]
      rw [if_neg (fun hin => hp ((hmem k).mp hin).2)]
      simp [Bool.not_eq_true] at hp
      simp [hp]

/-- Claim C3, witness: prefix invalidation with prefix posts: on a cache
holding a posts entry and a categories entry, observed at the posts
key. -/
theorem C3_invalidate_prefix_frame_witness :
    ((invalidateCache cacheAB "posts:" true).data.lookup "posts:[]"
        = if ("posts:").isPrefixOf "posts:[]" then none
          else cacheAB.data.lookup "posts:[]") ∧
    ((invalidateCache cacheAB "posts:" true).timestamps.lookup "posts:[]"
        = if ("posts:").isPrefixOf "posts:[]" then none
          else cacheAB.timestamps.lookup "posts:[]") :=
  C3_invalidate_prefix_frame cacheAB "posts:" "posts:[]" (by decide)

/-- Claim C4: when the post id is absent from the session-scoped viewed
list, the first run of the view-tracking flow calls incrementViews
exactly once and appends the id, and a second run in the same session is
a no-op — so two sequential runs issue at most one increment call. -/
theorem C4_view_tracked_once (postId : String) (st : ViewTrackState)
    (h : st.viewedPosts.contains postId = false) :
    (trackViewStep postId st).incrementCalls = st.incrementCalls + 1 ∧
    (trackViewStep postId st).viewedPosts = st.viewedPosts ++ [postId] ∧
    trackViewStep postId (trackViewStep postId st) = trackViewStep postId st := by
  have h1 : trackViewStep postId st
      = { viewedPosts := st.viewedPosts ++ [postId],
          incrementCalls := st.incrementCalls + 1 } := by
    simp only [trackViewStep, h, Bool.false_eq_true, if_false]
  refine ⟨by rw [h1], by rw [h1], ?_⟩
  rw [h1]
  simp [trackViewStep]

/-- Claim C4, witness: the theorem at post id post-1 and the fresh
session state. -/
theorem C4_view_tracked_once_witness :
    (trackViewStep "post-1" { viewedPosts := [], incrementCalls := 0 }).incrementCalls
      = 0 + 1 ∧
    (trackViewStep "post-1" { viewedPosts := [], incrementCalls := 0 }).viewedPosts
      = [] ++ ["post-1"] ∧
    trackViewStep "post-1"
        (trackViewStep "post-1" { viewedPosts := [], incrementCalls := 0 })
      = trackViewStep "post-1" { viewedPosts := [], incrementCalls := 0 } :=
  C4_view_tracked_once "post-1" { viewedPosts := [], incrementCalls := 0 } (by decide)

/-- Claim C5: from a state where the post is not liked (flag false and
id absent from the persistent list), toggling the like twice leaves the
persistent liked-posts list exactly as it was — same elements, same
order. -/
theorem C5_like_toggle_roundtrip (postId : String) (st : LikeState)
    (h1 : st.liked = false) (h2 : st.likedPosts.contains postId = false) :
    (handleLike postId (handleLike postId st)).likedPosts = st.likedPosts := by
  have hmem : postId ∉ st.likedPosts := by simpa using h2
  have hstep1 : handleLike postId st
      = { likedPosts := st.likedPosts ++ [postId], liked := true,
          likeCount := st.likeCount + 1 } := by
    simp only [handleLike, h1, h2, Bool.false_eq_true, if_false]
  rw [hstep1]
  have hfilter : st.likedPosts.filter (fun id => id != postId) = st.likedPosts :=
    List.filter_eq_self.mpr (fun a ha => by
      simp only [bne_iff_ne, ne_eq, decide_eq_true_eq]
      exact fun heq => hmem (heq ▸ ha))
  simp [handleLike, List.filter_append, hfilter]

/-- Claim C5, witness: the double toggle at post id post-1 from a state
whose persistent list holds one other id. -/
theorem C5_like_toggle_roundtrip_witness :
    (handleLike "post-1" (handleLike "post-1"
      { likedPosts := ["other"], liked := false, likeCount := 3 })).likedPosts
      = ["other"] :=
  C5_like_toggle_roundtrip "post-1"
    { likedPosts := ["other"], liked := false, likeCount := 3 } (by decide) (by decide)

/-- Claim C6, counterexample: with the store configured, both ids
present and the remote existence check failing, hasLiked returns false —
it does not fall back to the local liked-posts list, which here contains
the post id and would answer true. -/
theorem C6_remote_failure_returns_false :
    hasLiked true "p1" "u1" true true ["p1"] false = false ∧
    (["p1"].contains "p1") = true := by
  constructor
  · rfl
  · rfl

/-- Claim C6, amended: hasLiked consults the client-local persistent
liked-posts list only when the store is unconfigured (or an id is
missing); when configured with both ids present, a successful existence
probe of the (postId, userId) Like row answers the truthiness of the
returned row, and a failed probe answers false. -/
theorem C6_hasLiked_paths (postId userId : String) (probeFail rowFound : Bool)
    (likedLocal : List String)
    (hpost : postId ≠ "") (huser : userId ≠ "") :
    (hasLiked false postId userId probeFail rowFound likedLocal false
       = likedLocal.contains postId) ∧
    (hasLiked true postId userId true rowFound likedLocal false = false) ∧
    (hasLiked true postId userId false rowFound likedLocal false = rowFound) := by
  refine ⟨rfl, ?_, ?_⟩
  · simp [hasLiked, beq_false_of_ne hpost, beq_false_of_ne huser]
  · simp [hasLiked, beq_false_of_ne hpost, beq_false_of_ne huser]

/-- Claim C6, witness: the amended theorem at post p1, user u1, a failing
probe, a found row and a local list holding p1. -/
theorem C6_hasLiked_paths_witness :
    (hasLiked false "p1" "u1" true true ["p1"] false = (["p1"].contains "p1")) ∧
    (hasLiked true "p1" "u1" true true ["p1"] false = false) ∧
    (hasLiked true "p1" "u1" false true ["p1"] false = true) :=
  C6_hasLiked_paths "p1" "u1" true true ["p1"] (by decide) (by decide)

/-- Claim C7: with the Configuration Gate open, the remote query finding
no row for the slug, and the slug matching no fallback post either,
getBySlug resolves to null (none) — the caught no-row error never
escapes to the caller, every path yielding a value. -/
theorem C7_getBySlug_missing_resolves_null (posts : List Post) (cats : List Category)
    (slug : String)
    (hremote : ∀ p ∈ posts, ¬ p.slug = slug)
    (hmock : ∀ p ∈ mockPosts, ¬ p.slug = slug) :
    getBySlug true true posts cats slug = none := by
  have hfilter : (selectWithCategories posts cats).filter (fun p => p.slug == slug) = [] := by
    rw [List.filter_eq_nil_iff]
    intro p hp
    obtain ⟨q, hq, rfl⟩ := List.mem_map.mp hp
    simpa using hremote q hq
  have hfind : mockPosts.find? (fun p => p.slug == slug) = none := by
    rw [List.find?_eq_none]
    intro p hp
    simpa using hmock p hp
  simp [getBySlug, hfilter, hfind]

/-- Claim C7, witness: the theorem at the slug nonexistent-slug with an
empty remote posts table. -/
theorem C7_getBySlug_missing_resolves_null_witness :
    getBySlug true true [] [] "nonexistent-slug" = none :=
  C7_getBySlug_missing_resolves_null [] [] "nonexistent-slug" (by simp) (by decide)

/-- Claim C8, counterexample: the fallback list mockCategories is served
in its written order Technology, Travel, Lifestyle, Design, Programming,
which is not ascending by display name — so getAll is not name-ordered
in fallback mode. -/
theorem C8_fallback_not_sorted :
    getAll false true [] = mockCategories ∧
    ¬ (getAll false true []).Sorted catNameLe := by
  refine ⟨rfl, ?_⟩
  simp only [getAll, mockCategories, Bool.not_false, if_pos, List.sorted_cons,
    List.forall_mem_cons, catNameLe, List.not_mem_nil, false_implies, implies_true,
    and_true, true_and, List.sorted_nil, String.le_iff_toList_le]
  decide

/-- Claim C8, amended: getAll returns the remote categories ordered by
display name ascending when the store is configured and the query
succeeds (the same elements as the remote table); when unconfigured, or
on a remote error, it serves mockCategories in its fixed written order,
which is not name-ascending. -/
theorem C8_getAll_paths (db : List Category) (b : Bool) :
    (getAll true true db).Sorted catNameLe ∧
    (∀ c, c ∈ getAll true true db ↔ c ∈ db) ∧
    getAll false b db = mockCategories ∧
    getAll true false db = mockCategories := by
  refine ⟨List.sorted_insertionSort catNameLe db, fun c => ?_, rfl, rfl⟩
  simp [getAll, List.mem_insertionSort]

/-- Claim C9, counterexample: when both the counter read and the row
count fail, getLikes returns 0, which is neither the stored counter
(9) nor the row count (5); and in mock mode the result tracks the random
draw, not the stored data: draws 7 and 12 over identical stored data
give different results. -/
theorem C9_double_failure_returns_zero :
    getLikes true 0 true (some 9) true 5 = 0 ∧ (0 : Nat) ≠ 9 ∧ (0 : Nat) ≠ 5 ∧
    getLikes false 7 false (some 9) false 5 = 7 ∧
    getLikes false 12 false (some 9) false 5 = 12 := by
  exact ⟨rfl, by decide, by decide, rfl, rfl⟩

/-- Claim C9, amended: in configured mode getLikes returns the
denormalized counter (with null read as 0) whenever its read succeeds,
falls back to the direct row count only when the counter read fails, and
returns 0 when both fail; in mock mode it returns an arbitrary value
below 50 drawn from the random source. -/
theorem C9_getLikes_paths (rnd rows : Nat) (counterVal : Option Nat) :
    (getLikes true rnd false counterVal false rows = counterVal.getD 0) ∧
    (getLikes true rnd false counterVal true rows = counterVal.getD 0) ∧
    (getLikes true rnd true counterVal false rows = rows) ∧
    (getLikes true rnd true counterVal true rows = 0) ∧
    (getLikes false rnd false counterVal false rows = rnd % 50 ∧ rnd % 50 < 50) := by
  exact ⟨rfl, rfl, rfl, rfl, rfl, Nat.mod_lt _ (by norm_num)⟩

/-- Claim C10: toggleLike always resolves — to a numeric count or to the
boolean true — whatever the configuration, guest id, current liked flag
and failures of the remote delete, insert, counter read and row count:
no rejection can reach the caller from this function, so the rejection
branch of the post page is unreachable through its own errors. -/
theorem C10_toggleLike_never_rejects (configured : Bool) (userId : Option String)
    (liked delFail : Bool) (insErrCode : Option Nat) (counterFail : Bool)
    (counterVal : Option Nat) (rowFail : Bool) (rows : Option Nat) :
    ∃ r : LikeResult,
      toggleLike configured userId liked delFail insErrCode counterFail counterVal
          rowFail rows
        = Except.ok r := by
  cases hc : configured
  · exact ⟨LikeResult.trueVal, rfl⟩
  · cases ht : toggleLikeTry userId liked delFail insErrCode counterFail counterVal
        rowFail rows with
    | ok r => exact ⟨r, by simp [toggleLike, ht]⟩
    | error e => exact ⟨LikeResult.trueVal, by simp [toggleLike, ht]⟩

end ReactBlog
